import Mathlib

/-!
Shallow embedding of the request-serving dispatch policy of this
repository: the Express middleware chain of src/server.ts, the variant
dispatcher with an HTTPS-redirect middleware (src/unnamed/part_004), the
static caching options of the near-duplicate variant
(src/unnamed/part_001), and the two streaming entry servers
(src/unnamed/part_005 and src/app/entry.server.tsx).

Requests, the process environment and the outcomes of the external
collaborators (the filesystem behind express.static and the React Router
rendering module) are explicit inputs; each dispatcher is a total
function from those inputs to at most one response, computed by running
its middleware chain in registration order.
-/

/-- Record returned by Node process.memoryUsage(), as used by the
/health handler of src/server.ts. -/
structure MemoryUsage where
  rss : Int
  heapTotal : Int
  heapUsed : Int
  external : Int
  arrayBuffers : Int
  deriving DecidableEq, Repr

/-- Process-wide ambient values the handlers read: process.env.NODE_ENV,
process.env.PORT (already parsed by Number, none when unset or not a
number), process.uptime(), the current time rendered by
new Date().toISOString(), and process.memoryUsage(). -/
structure Env where
  nodeEnv : Option String
  portVar : Option Nat
  uptime : Int
  now : String
  memory : MemoryUsage
  deriving DecidableEq, Repr

/-- An inbound HTTP request as the dispatchers observe it: method, path
(req.path), full original URL with query string (req.url), and the two
headers the variant dispatcher reads (host and x-forwarded-proto);
a header that is absent is none. -/
structure Request where
  method : String
  path : String
  url : String
  host : Option String
  xForwardedProto : Option String
  deriving DecidableEq, Repr

/-- JavaScript `x || d` for an optional number: undefined and 0 are
falsy, so they yield the default. -/
def jsOrNat : Option Nat → Nat → Nat
  | some n, d => if n = 0 then d else n
  | none, d => d

/-- JavaScript `x || d` for an optional string: undefined and the empty
string are falsy, so they yield the default. -/
def jsOrStr : Option String → String → String
  | some s, d => if s = "" then d else s
  | none, d => d

/-- JavaScript truthiness of an optional string (used for err.stack):
undefined and the empty string are falsy. -/
def truthyStr : Option String → Bool
  | some s => !(s = "")
  | none => false

/-- JavaScript string interpolation of a possibly undefined header value:
an absent header renders as the text undefined. -/
def jsShow : Option String → String
  | some s => s
  | none => "undefined"

/-- Structural prefix test on character lists (true when the first list
is an initial segment of the second). -/
def charsStartWith : List Char → List Char → Bool
  | [], _ => true
  | _ :: _, [] => false
  | p :: ps, c :: cs => p == c && charsStartWith ps cs

/-- Structural containment test: does the pattern (second list) occur
contiguously inside the first list. -/
def charsContain : List Char → List Char → Bool
  | [], pat => pat.isEmpty
  | c :: cs, pat => charsStartWith pat (c :: cs) || charsContain cs pat

/-- A string contains a pattern as a contiguous substring. -/
def strContains (s pat : String) : Bool :=
  charsContain s.toList pat.toList

/-- Does the request path fall under the /build mount of
app.use with a /build path argument: Express matches the mount point
itself and any path continuing with a slash. -/
def underBuild (p : String) : Bool :=
  p = "/build" || charsStartWith "/build/".toList p.toList

/-- Methods answered by an Express app.get route and by express.static:
GET, plus HEAD which Express serves through GET handlers. -/
def getLike (m : String) : Prop := m = "GET" ∨ m = "HEAD"

instance (m : String) : Decidable (getLike m) := by
  unfold getLike
  infer_instance

/-- The error value reaching the terminal error middleware: the
ServerError interface of src/server.ts (message, optional numeric
status, optional stack text). -/
structure ServerError where
  message : String
  status : Option Nat
  stack : Option String
  deriving DecidableEq, Repr

/-- Body of the JSON error response built by the error middleware of
src/server.ts: an error string and an optional stack string. -/
structure ErrorBody where
  error : String
  stack : Option String
  deriving DecidableEq, Repr

/-- The HealthResponse record of src/server.ts (the /health JSON body). -/
structure HealthResponse where
  status : String
  timestamp : String
  uptime : Int
  environment : String
  port : Nat
  memory : MemoryUsage
  deriving DecidableEq, Repr

/-- The ApiStatusResponse record of src/server.ts (the /api/status JSON
body). -/
structure ApiStatusResponse where
  message : String
  version : String
  environment : String
  timestamp : String
  deriving DecidableEq, Repr

/-- Which responder produced a response; used to state precedence
properties of the chain. -/
inductive Producer where
  | cors
  | health
  | apiStatus
  | staticFiles
  | middlewareDemo
  | rendering
  | fallback
  | errorHandler
  | redirect
  deriving DecidableEq, Repr

/-- Response bodies, by the responder that builds them. The
/middleware-demo page body is carried opaquely; no claim concerns its
text. -/
inductive Body where
  | empty
  | html (s : String)
  | healthJson (h : HealthResponse)
  | apiJson (a : ApiStatusResponse)
  | errorJson (e : ErrorBody)
  | fileContents (p : String)
  | demoPage
  deriving DecidableEq, Repr

/-- An HTTP response: status code, accumulated headers, body, and the
responder that emitted it. -/
structure Response where
  status : Nat
  headers : List (String × String)
  body : Body
  producer : Producer
  deriving DecidableEq, Repr

/-- res.setHeader: replace any previous value of the key. -/
def setHeader (k v : String) (hs : List (String × String)) : List (String × String) :=
  hs.filter (fun p => !(p.1 = k)) ++ [(k, v)]

/-- res.removeHeader. -/
def removeHeader (k : String) (hs : List (String × String)) : List (String × String) :=
  hs.filter (fun p => !(p.1 = k))

/-- Outcome of delegating to the React Router rendering step for one
request: the dynamic import throws, the resolved handler throws
synchronously, the handler forwards an error to the next error
middleware, or the handler produces a response. -/
inductive RenderStep where
  | importFail
  | handlerThrow
  | callNextErr (e : ServerError)
  | ok (r : Response)
  deriving DecidableEq, Repr

/-- Per-request behavior of the external collaborators: whether the
requested file exists under build/client (express.static serves it when
present and falls through when absent, its documented default), and how
the rendering step behaves. -/
structure World where
  staticFileExists : Bool
  renderStep : RenderStep
  deriving DecidableEq, Repr

/-- Result of one middleware: emit the response (ending the chain), pass
to the next middleware with the accumulated headers, or raise an error
to the terminal error middleware. -/
inductive MWResult where
  | respond (r : Response)
  | nextWith (hs : List (String × String))
  | raise (hs : List (String × String)) (e : ServerError)

/-- A middleware reads the environment, the collaborator outcomes, the
request and the headers accumulated so far. -/
def Middleware := Env → World → Request → List (String × String) → MWResult

/-- Run a middleware chain in order: the first respond wins, a raise is
answered by the terminal error responder, and an exhausted chain yields
none (no response emitted). -/
def runChain (env : Env) (w : World) (req : Request)
    (errh : Env → List (String × String) → ServerError → Response) :
    List Middleware → List (String × String) → Option Response
  | [], _ => none
  | m :: ms, hs =>
    match m env w req hs with
    | .respond r => some r
    | .nextWith hs2 => runChain env w req errh ms hs2
    | .raise hs2 e => some (errh env hs2 e)

/-- Milliseconds in the express.static maxAge string 1y. -/
def oneYearMs : Nat := 31536000000

/-- Milliseconds in the express.static maxAge string 1h. -/
def oneHourMs : Nat := 3600000

/-- Options passed to express.static that shape the Cache-Control
header: the immutable flag and maxAge in milliseconds (0 when the
options object omits it, the express.static default). -/
structure StaticOptions where
  immutable : Bool
  maxAgeMs : Nat
  deriving DecidableEq, Repr

/-- Cache-Control header value produced by express.static from its
options: public, max-age in seconds, plus immutable when configured. -/
def renderCacheControl (o : StaticOptions) : String :=
  "public, max-age=" ++ toString (o.maxAgeMs / 1000) ++
    (if o.immutable then ", immutable" else "")

namespace ServerTs

/-- Security middleware of src/server.ts: sets four security headers,
removes X-Powered-By, and passes on. -/
def securityMiddleware : Middleware := fun _ _ _ hs =>
  .nextWith (setHeader "Referrer-Policy" "strict-origin-when-cross-origin"
    (removeHeader "X-Powered-By"
      (setHeader "X-XSS-Protection" "1; mode=block"
        (setHeader "X-Frame-Options" "DENY"
          (setHeader "X-Content-Type-Options" "nosniff" hs)))))

/-- compression() middleware: negotiates encoding only, modelled as a
pass-through. -/
def compressionMiddleware : Middleware := fun _ _ _ hs => .nextWith hs

/-- CORS middleware of src/server.ts: sets the three
Access-Control-Allow headers; an OPTIONS request is answered immediately
with status 200 and an empty body, anything else passes on. -/
def corsMiddleware : Middleware := fun _ _ req hs =>
  let hs2 := setHeader "Access-Control-Allow-Headers" "Content-Type, Authorization"
    (setHeader "Access-Control-Allow-Methods" "GET, POST, PUT, DELETE, OPTIONS"
      (setHeader "Access-Control-Allow-Origin" "*" hs))
  if req.method = "OPTIONS" then
    .respond { status := 200, headers := hs2, body := .empty, producer := .cors }
  else
    .nextWith hs2

/-- morgan logging middleware: observability only, a pass-through. -/
def morganMiddleware : Middleware := fun _ _ _ hs => .nextWith hs

/-- app.get for /health in src/server.ts: builds the HealthResponse
record and answers 200 JSON. -/
def healthRoute : Middleware := fun env _ req hs =>
  if getLike req.method ∧ req.path = "/health" then
    .respond
      { status := 200, headers := hs,
        body := .healthJson
          { status := "OK", timestamp := env.now, uptime := env.uptime,
            environment := jsOrStr env.nodeEnv "development",
            port := jsOrNat env.portVar 3000, memory := env.memory },
        producer := .health }
  else
    .nextWith hs

/-- app.get for /api/status in src/server.ts: builds the
ApiStatusResponse record and answers 200 JSON. -/
def apiStatusRoute : Middleware := fun env _ req hs =>
  if getLike req.method ∧ req.path = "/api/status" then
    .respond
      { status := 200, headers := hs,
        body := .apiJson
          { message := "Server is running", version := "1.0.0",
            environment := jsOrStr env.nodeEnv "development",
            timestamp := env.now },
        producer := .apiStatus }
  else
    .nextWith hs

/-- express.static options chosen by src/server.ts: in production
immutable with maxAge 1y, otherwise express.static with no options
(maxAge defaults to 0, not immutable). -/
def staticOptions (env : Env) : StaticOptions :=
  if env.nodeEnv = some "production" then
    { immutable := true, maxAgeMs := oneYearMs }
  else
    { immutable := false, maxAgeMs := 0 }

/-- express.static mounted at /build, parameterized by the variant
options: for a GET or HEAD request under the mount whose file exists it
answers 200 with the file and the Cache-Control header derived from the
options; a missing file or another method falls through (the
express.static fallthrough default). Shared by the dispatcher variants. -/
def staticMiddleware (opts : Env → StaticOptions) : Middleware := fun env w req hs =>
  if underBuild req.path = true ∧ getLike req.method ∧ w.staticFileExists = true then
    .respond
      { status := 200,
        headers := setHeader "Cache-Control" (renderCacheControl (opts env)) hs,
        body := .fileContents req.path, producer := .staticFiles }
  else
    .nextWith hs

/-- Request timing middleware of src/server.ts: logs on finish only, a
pass-through. -/
def timingMiddleware : Middleware := fun _ _ _ hs => .nextWith hs

/-- app.get for /middleware-demo: answers 200 with the demo HTML page
(body carried opaquely). -/
def middlewareDemoRoute : Middleware := fun _ _ req hs =>
  if getLike req.method ∧ req.path = "/middleware-demo" then
    .respond { status := 200, headers := hs, body := .demoPage, producer := .middlewareDemo }
  else
    .nextWith hs

/-- Text of the fallback placeholder page of src/server.ts up to the
interpolated mode value. CSS braces are written as hex escapes and
apostrophes as \x27; content otherwise as in the source template
literal. -/
def fallbackHtmlA : String :=
  "\n        <!DOCTYPE html>\n        <html lang=\"en\">\n        <head>\n          <meta charset=\"utf-8\">\n          <meta name=\"viewport\" content=\"width=device-width, initial-scale=1\">\n          <title>Express Server</title>\n          <link href=\"https://fonts.googleapis.com/css2?family=Roboto:wght@300;400;500;700&display=swap\" rel=\"stylesheet\">\n          <style>\n            body \x7b font-family: \x27Roboto\x27, sans-serif; margin: 0; padding: 20px; background: #f5f5f5; text-align: center; \x7d\n            .container \x7b max-width: 600px; margin: 50px auto; background: white; padding: 32px; border-radius: 8px; box-shadow: 0 2px 4px rgba(0,0,0,0.1); \x7d\n            h1 \x7b color: #1976d2; \x7d\n            .mode-toggle \x7b margin: 20px 0; padding: 10px; background: #e3f2fd; border-radius: 4px; \x7d\n          </style>\n        </head>\n        <body>\n          <div class=\"container\">\n            <h1>🚀 Express Server Running</h1>\n            <p>The Express server with TypeScript and custom middleware is working!</p>\n            <div class=\"mode-toggle\">\n              <p><strong>Mode:</strong> "

/-- Text of the fallback placeholder page after the interpolated mode
value, holding the links to /health, /api/status and /middleware-demo. -/
def fallbackHtmlB : String :=
  "</p>\n              <p><small>Use <code>REACT_ROUTER_MODE=production</code> for React Router optimization</small></p>\n            </div>\n            <p><a href=\"/health\">Health Check</a> | <a href=\"/api/status\">API Status</a> | <a href=\"/middleware-demo\">Middleware Demo</a></p>\n          </div>\n        </body>\n        </html>\n      "

/-- The fallback placeholder HTML of src/server.ts, with the mode value
interpolated by process.env.NODE_ENV or the development default. -/
def fallbackHtml (env : Env) : String :=
  fallbackHtmlA ++ (jsOrStr env.nodeEnv "development" ++ fallbackHtmlB)

/-- The development-mode catch-all of src/server.ts: tries to import and
invoke the React Router handler; an import failure or a synchronous
throw of the handler is caught and answered with the 404 fallback
placeholder; a handler that forwards an error reaches the error
middleware; otherwise the handler response is emitted. -/
def renderCatchAll : Middleware := fun env w _ hs =>
  match w.renderStep with
  | .importFail =>
    .respond { status := 404, headers := hs, body := .html (fallbackHtml env), producer := .fallback }
  | .handlerThrow =>
    .respond { status := 404, headers := hs, body := .html (fallbackHtml env), producer := .fallback }
  | .callNextErr e => .raise hs e
  | .ok r => .respond { r with producer := .rendering }

/-- Terminal error middleware of src/server.ts: in production the error
field is the generic Internal Server Error text, otherwise the error
message; the stack field is attached only outside production and only
when err.stack is truthy; the status is err.status with JavaScript
or-default 500. -/
def errorMiddleware (env : Env) (hs : List (String × String)) (e : ServerError) : Response :=
  let isProduction := env.nodeEnv = some "production"
  { status := jsOrNat e.status 500,
    headers := hs,
    body := .errorJson
      { error := if isProduction then "Internal Server Error" else e.message,
        stack := if ¬isProduction ∧ truthyStr e.stack = true then e.stack else none },
    producer := .errorHandler }

/-- The middleware chain of src/server.ts in registration order
(development React Router branch, the one taken when REACT_ROUTER_MODE
is not production). -/
def chain : List Middleware :=
  [securityMiddleware, compressionMiddleware, corsMiddleware, morganMiddleware,
   healthRoute, apiStatusRoute, staticMiddleware staticOptions, timingMiddleware,
   middlewareDemoRoute, renderCatchAll]

/-- Express sets X-Powered-By before any middleware runs. -/
def initialHeaders : List (String × String) := [("X-Powered-By", "Express")]

/-- The src/server.ts dispatcher: run the chain on the request. -/
def dispatch (env : Env) (w : World) (req : Request) : Option Response :=
  runChain env w req errorMiddleware chain initialHeaders

/-- The request reaches the rendering catch-all: it is not an OPTIONS
preflight, matches none of the fixed routes, and is not served by the
static middleware. The conjuncts mirror the chain guards. -/
def delegatesToRenderer (w : World) (req : Request) : Prop :=
  ¬(req.method = "OPTIONS") ∧
  ¬(getLike req.method ∧ req.path = "/health") ∧
  ¬(getLike req.method ∧ req.path = "/api/status") ∧
  ¬(underBuild req.path = true ∧ getLike req.method ∧ w.staticFileExists = true) ∧
  ¬(getLike req.method ∧ req.path = "/middleware-demo")

instance (w : World) (req : Request) : Decidable (delegatesToRenderer w req) := by
  unfold delegatesToRenderer
  infer_instance

end ServerTs

namespace Variant001

/-- express.static options of the src/unnamed/part_001 variant: in
production immutable with maxAge 1y, in development maxAge 1h (not
immutable). -/
def staticOptions (env : Env) : StaticOptions :=
  if env.nodeEnv = some "production" then
    { immutable := true, maxAgeMs := oneYearMs }
  else
    { immutable := false, maxAgeMs := oneHourMs }

end Variant001

namespace Variant004

/-- express.static options of the src/unnamed/part_004 variant: in
production immutable with maxAge 1y, in development maxAge 1h. -/
def staticOptions (env : Env) : StaticOptions :=
  if env.nodeEnv = some "production" then
    { immutable := true, maxAgeMs := oneYearMs }
  else
    { immutable := false, maxAgeMs := oneHourMs }

/-- HTTPS redirect middleware of src/unnamed/part_004, registered only
in production: when the x-forwarded-proto header is not https, redirect
(res.redirect, status 302) to https scheme on the host header followed
by req.url; otherwise pass on. Outside production the guard makes the
registration conditional, so the middleware passes on. -/
def httpsRedirectMiddleware : Middleware := fun env _ req hs =>
  if env.nodeEnv = some "production" then
    if ¬(req.xForwardedProto = some "https") then
      .respond
        { status := 302,
          headers := setHeader "Location" ("https://" ++ jsShow req.host ++ req.url) hs,
          body := .empty, producer := .redirect }
    else
      .nextWith hs
  else
    .nextWith hs

/-- The app.all catch-all of src/unnamed/part_004: the request handler
of the statically imported build; an error thrown or forwarded by it
reaches the Express default error handling. -/
def routerAll : Middleware := fun _ w _ hs =>
  match w.renderStep with
  | .importFail => .raise hs { message := "router module unavailable", status := none, stack := none }
  | .handlerThrow => .raise hs { message := "router handler threw", status := none, stack := none }
  | .callNextErr e => .raise hs e
  | .ok r => .respond { r with producer := .rendering }

/-- The Express built-in final error handler (this variant registers no
error middleware of its own): status from the error with JavaScript
or-default 500, HTML body. -/
def expressDefaultErrorHandler (_ : Env) (hs : List (String × String)) (e : ServerError) : Response :=
  { status := jsOrNat e.status 500, headers := hs,
    body := .html e.message, producer := .errorHandler }

/-- The middleware chain of src/unnamed/part_004 in registration order:
compression, the production HTTPS redirect, the /build static mount, and
the app.all router catch-all. The app disables x-powered-by, so the
chain starts with no headers. -/
def chain : List Middleware :=
  [ServerTs.compressionMiddleware, httpsRedirectMiddleware,
   ServerTs.staticMiddleware staticOptions, routerAll]

/-- The src/unnamed/part_004 dispatcher. -/
def dispatch (env : Env) (w : World) (req : Request) : Option Response :=
  runChain env w req expressDefaultErrorHandler chain []

end Variant004

/-- When in the progressive render the shell becomes ready or fails, in
milliseconds from the start of handleRequest, or never. -/
inductive RenderEvent where
  | shellReady (t : Nat)
  | shellError (t : Nat)
  | never
  deriving DecidableEq, Repr

/-- Time at which the promise returned by handleRequest settles,
modelled from the renderToPipeableStream contract: onShellReady resolves
it and onShellError rejects it; when an abort is scheduled after d
milliseconds, a shell event after d is cut short by the abort (which
errors the pending shell), and a render that never produces a shell
settles at the abort; with no abort scheduled such a render never
settles. -/
def settleTime (abortDelay : Option Nat) : RenderEvent → Option Nat
  | .shellReady t => match abortDelay with
    | some d => some (min t d)
    | none => some t
  | .shellError t => match abortDelay with
    | some d => some (min t d)
    | none => some t
  | .never => abortDelay

namespace EntryServerTimeout

/-- streamTimeout constant of src/unnamed/part_005. -/
def streamTimeout : Nat := 5000

/-- src/unnamed/part_005 schedules setTimeout of abort at streamTimeout
plus 1000 milliseconds. -/
def abortDelay : Option Nat := some (streamTimeout + 1000)

end EntryServerTimeout

namespace EntryServer

/-- src/app/entry.server.tsx schedules no abort: its handleRequest
registers onShellReady and onShellError only. -/
def abortDelay : Option Nat := none

end EntryServer

/-- Memory record used by concrete witnesses. -/
def memSample : MemoryUsage :=
  { rss := 123456, heapTotal := 2000, heapUsed := 1500, external := 10, arrayBuffers := 5 }

/-- A development environment used by concrete witnesses. -/
def envDev : Env :=
  { nodeEnv := some "development", portVar := some 3000, uptime := 42,
    now := "2026-01-01T00:00:00.000Z", memory := memSample }

/-- A production environment used by concrete witnesses. -/
def envProd : Env := { envDev with nodeEnv := some "production" }

/-- A GET / request used by concrete witnesses. -/
def reqRoot : Request :=
  { method := "GET", path := "/", url := "/", host := some "example.com",
    xForwardedProto := some "http" }

/-- A world where the rendering module fails to import. -/
def wImportFail : World := { staticFileExists := false, renderStep := .importFail }

/-- A GET /health request used by concrete witnesses. -/
def reqHealth : Request :=
  { method := "GET", path := "/health", url := "/health", host := some "example.com",
    xForwardedProto := some "https" }

/-- A GET /api/status request used by concrete witnesses. -/
def reqApiStatus : Request :=
  { method := "GET", path := "/api/status", url := "/api/status", host := some "example.com",
    xForwardedProto := some "https" }

/-- An OPTIONS preflight request used by concrete witnesses. -/
def reqOptions : Request :=
  { method := "OPTIONS", path := "/api/status", url := "/api/status",
    host := some "example.com", xForwardedProto := some "https" }

/-- A GET /build/app.js request over plain HTTP. -/
def reqBuildAsset : Request :=
  { method := "GET", path := "/build/app.js", url := "/build/app.js",
    host := some "example.com", xForwardedProto := some "http" }

/-- A GET request for a missing file under /build. -/
def reqBuildMissing : Request :=
  { method := "GET", path := "/build/missing.js", url := "/build/missing.js",
    host := some "example.com", xForwardedProto := none }

/-- A world where the requested static file exists (render module also
fails to import, which must not matter for a served asset). -/
def wFileOk : World := { staticFileExists := true, renderStep := .importFail }

/-- A response produced by a successfully resolved rendering handler. -/
def respRendered : Response :=
  { status := 200, headers := [], body := .html "rendered page", producer := .rendering }

/-- A world where the static file is missing and the rendering handler
resolves and responds. -/
def wRenderOk : World := { staticFileExists := false, renderStep := .ok respRendered }

/-- An error with a zero numeric status, a legal value of the ServerError
status field. -/
def errStatusZero : ServerError := { message := "boom", status := some 0, stack := none }

/-- A world whose rendering handler forwards errStatusZero to the error
middleware. -/
def wErrZero : World := { staticFileExists := false, renderStep := .callNextErr errStatusZero }

/-- An error with a nonzero status and a stack, for the error-middleware
witness. -/
def errTeapot : ServerError :=
  { message := "teapot", status := some 418, stack := some "trace line" }

/-- A world whose rendering handler forwards errTeapot. -/
def wErrTeapot : World := { staticFileExists := false, renderStep := .callNextErr errTeapot }

/-- Setting a header makes it present in the header list. -/
theorem mem_setHeader_self (k v : String) (hs : List (String × String)) :
    (k, v) ∈ setHeader k v hs := by
  unfold setHeader
  exact List.mem_append_right _ (List.mem_singleton.mpr rfl)

/-- Containment survives prepending on the left. -/
theorem charsContain_append_right (xs ys pat : List Char) (h : charsContain ys pat = true) :
    charsContain (xs ++ ys) pat = true := by
  induction xs with
  | nil => simpa using h
  | cons c cs ih =>
    simp only [List.cons_append, charsContain, Bool.or_eq_true]
    exact Or.inr ih

/-- String containment survives prepending on the left. -/
theorem strContains_append_right (a b pat : String) (h : strContains b pat = true) :
    strContains (a ++ b) pat = true := by
  unfold strContains at h ⊢
  have hd : (a ++ b).toList = a.toList ++ b.toList := String.data_append a b
  rw [hd]
  exact charsContain_append_right _ _ _ h

/-- A path under the /build mount is not the /health route. -/
theorem underBuild_ne_health {p : String} (h : underBuild p = true) : ¬(p = "/health") := by
  intro hp
  rw [hp] at h
  exact absurd h (by decide)

/-- A path under the /build mount is not the /api/status route. -/
theorem underBuild_ne_api {p : String} (h : underBuild p = true) : ¬(p = "/api/status") := by
  intro hp
  rw [hp] at h
  exact absurd h (by decide)

/-- A path under the /build mount is not the /middleware-demo route. -/
theorem underBuild_ne_demo {p : String} (h : underBuild p = true) : ¬(p = "/middleware-demo") := by
  intro hp
  rw [hp] at h
  exact absurd h (by decide)

/-- A GET-like method is not OPTIONS. -/
theorem getLike_ne_options {m : String} (h : getLike m) : ¬(m = "OPTIONS") := by
  rcases h with h | h <;> simp [h]

/-- The src/server.ts chain serves a present file under /build through
the static middleware, with the Cache-Control header derived from the
mode-dependent options. -/
theorem ServerTs.static_serves (env : Env) (w : World) (req : Request)
    (hb : underBuild req.path = true) (hg : getLike req.method)
    (hf : w.staticFileExists = true) :
    ∃ hs, ServerTs.dispatch env w req =
      some { status := 200,
             headers := setHeader "Cache-Control"
               (renderCacheControl (ServerTs.staticOptions env)) hs,
             body := .fileContents req.path, producer := .staticFiles } := by
  have hno := getLike_ne_options hg
  have hh := underBuild_ne_health hb
  have ha := underBuild_ne_api hb
  simp only [ServerTs.dispatch, ServerTs.chain, runChain, ServerTs.securityMiddleware,
    ServerTs.compressionMiddleware, ServerTs.corsMiddleware, ServerTs.morganMiddleware,
    ServerTs.healthRoute, ServerTs.apiStatusRoute, ServerTs.staticMiddleware,
    hno, hh, ha, hg, hb, hf, if_neg, if_pos, and_true, true_and, and_false, false_and,
    not_false_eq_true, if_false, ite_false, ite_true]
  exact ⟨_, rfl⟩

/-- Under the delegation conditions the src/server.ts chain reaches the
rendering catch-all, and a caught failure (import failure or synchronous
handler throw) is answered with the 404 fallback placeholder. -/
theorem ServerTs.render_fallback (env : Env) (w : World) (req : Request)
    (hdel : ServerTs.delegatesToRenderer w req)
    (hf : w.renderStep = .importFail ∨ w.renderStep = .handlerThrow) :
    ∃ hs, ServerTs.dispatch env w req =
      some { status := 404, headers := hs,
             body := .html (ServerTs.fallbackHtml env), producer := .fallback } := by
  obtain ⟨h1, h2, h3, h4, h5⟩ := hdel
  rcases hf with hf | hf <;>
  · simp only [ServerTs.dispatch, ServerTs.chain, runChain, ServerTs.securityMiddleware,
      ServerTs.compressionMiddleware, ServerTs.corsMiddleware, ServerTs.morganMiddleware,
      ServerTs.healthRoute, ServerTs.apiStatusRoute, ServerTs.staticMiddleware,
      ServerTs.timingMiddleware, ServerTs.middlewareDemoRoute, ServerTs.renderCatchAll,
      h1, h2, h3, h4, h5, hf, if_neg, if_false, ite_false]
    exact ⟨_, rfl⟩

/-- Under the delegation conditions an error forwarded by the rendering
handler is answered by the terminal error middleware. -/
theorem ServerTs.render_error (env : Env) (w : World) (req : Request) (e : ServerError)
    (hdel : ServerTs.delegatesToRenderer w req)
    (he : w.renderStep = .callNextErr e) :
    ∃ hs, ServerTs.dispatch env w req = some (ServerTs.errorMiddleware env hs e) := by
  obtain ⟨h1, h2, h3, h4, h5⟩ := hdel
  simp only [ServerTs.dispatch, ServerTs.chain, runChain, ServerTs.securityMiddleware,
    ServerTs.compressionMiddleware, ServerTs.corsMiddleware, ServerTs.morganMiddleware,
    ServerTs.healthRoute, ServerTs.apiStatusRoute, ServerTs.staticMiddleware,
    ServerTs.timingMiddleware, ServerTs.middlewareDemoRoute, ServerTs.renderCatchAll,
    h1, h2, h3, h4, h5, he, if_neg, if_false, ite_false]
  exact ⟨_, rfl⟩

/-- C1 counterexample: the src/server.ts dispatcher performs no HTTPS
redirect. In production mode a plain-HTTP GET /health (x-forwarded-proto
http) is answered 200 by the health responder, not redirected. -/
theorem c1_counterexample :
    (ServerTs.dispatch envProd wImportFail
      { method := "GET", path := "/health", url := "/health",
        host := some "example.com", xForwardedProto := some "http" }).map Response.status
      = some 200 ∧
    (ServerTs.dispatch envProd wImportFail
      { method := "GET", path := "/health", url := "/health",
        host := some "example.com", xForwardedProto := some "http" }).map Response.producer
      = some Producer.health := by
  decide

/-- C1 (amended): in the variant dispatcher that registers the HTTPS
redirect middleware (src/unnamed/part_004), every production request
whose x-forwarded-proto header is not https is answered with a 302
redirect whose Location is the https URL built from the host header and
the full original req.url; the redirect middleware runs before the
static mount, so the redirect takes precedence over static-asset
serving. -/
theorem c1_https_redirect_variant004 (env : Env) (w : World) (req : Request) (h : String)
    (hprod : env.nodeEnv = some "production")
    (hproto : ¬(req.xForwardedProto = some "https"))
    (hhost : req.host = some h) :
    Variant004.dispatch env w req =
      some { status := 302,
             headers := setHeader "Location" ("https://" ++ h ++ req.url) [],
             body := .empty, producer := .redirect } := by
  simp only [Variant004.dispatch, Variant004.chain, runChain, ServerTs.compressionMiddleware,
    Variant004.httpsRedirectMiddleware, hprod, hproto, hhost, jsShow,
    not_false_eq_true, if_pos, ite_true]

/-- C1 witness: production GET /build/app.js over plain HTTP is
redirected to the https URL for the same path, even though the asset
exists; it is not served. -/
theorem c1_witness :
    Variant004.dispatch envProd wFileOk reqBuildAsset =
      some { status := 302,
             headers := setHeader "Location" ("https://" ++ "example.com" ++ reqBuildAsset.url) [],
             body := .empty, producer := .redirect } :=
  c1_https_redirect_variant004 envProd wFileOk reqBuildAsset "example.com" rfl
    (by decide) rfl

/-- C2 counterexample: a GET request under /build whose file is missing
falls through express.static (fallthrough default) and is answered by
the rendering responder, so the static prefix does not always win. -/
theorem c2_counterexample :
    underBuild reqBuildMissing.path = true ∧
    (ServerTs.dispatch envDev wRenderOk reqBuildMissing).map Response.producer
      = some Producer.rendering := by
  decide

/-- C2 (amended): for every GET or HEAD request whose path falls under
the /build mount and whose file exists under build/client, the response
is produced by the static-file responder (never the rendering
responder); when the file is missing, express.static falls through and a
later responder answers. -/
theorem c2_static_beats_renderer (env : Env) (w : World) (req : Request)
    (hb : underBuild req.path = true) (hg : getLike req.method)
    (hf : w.staticFileExists = true) :
    ∃ r, ServerTs.dispatch env w req = some r ∧ r.producer = .staticFiles ∧
      ¬(r.producer = .rendering) ∧ r.status = 200 ∧ r.body = .fileContents req.path := by
  obtain ⟨hs, hd⟩ := ServerTs.static_serves env w req hb hg hf
  exact ⟨_, hd, rfl, by simp, rfl, rfl⟩

/-- C2 witness: GET /build/app.js with the file present is served by the
static responder. -/
theorem c2_witness :
    ∃ r, ServerTs.dispatch envDev wFileOk reqBuildAsset = some r ∧
      r.producer = .staticFiles ∧ ¬(r.producer = .rendering) ∧ r.status = 200 ∧
      r.body = .fileContents reqBuildAsset.path :=
  c2_static_beats_renderer envDev wFileOk reqBuildAsset (by decide) (Or.inl rfl) rfl

/-- C3: whenever a request is delegated to the rendering catch-all of
src/server.ts and resolving or invoking the rendering handler throws,
the dispatcher answers 404 (never 500) with the fallback placeholder
HTML, which contains links to /health and /api/status; the exception is
caught, never unhandled. -/
theorem c3_render_failure_fallback (env : Env) (w : World) (req : Request)
    (hdel : ServerTs.delegatesToRenderer w req)
    (hthrow : w.renderStep = .importFail ∨ w.renderStep = .handlerThrow) :
    ∃ r, ServerTs.dispatch env w req = some r ∧ r.status = 404 ∧ ¬(r.status = 500) ∧
      r.producer = .fallback ∧ r.body = .html (ServerTs.fallbackHtml env) ∧
      strContains (ServerTs.fallbackHtml env) "<a href=\"/health\">" = true ∧
      strContains (ServerTs.fallbackHtml env) "<a href=\"/api/status\">" = true := by
  obtain ⟨hs, hd⟩ := ServerTs.render_fallback env w req hdel hthrow
  refine ⟨_, hd, rfl, by simp, rfl, rfl, ?_, ?_⟩ <;>
  · unfold ServerTs.fallbackHtml
    exact strContains_append_right _ _ _
      (strContains_append_right _ _ _ (by decide))

/-- C3 witness: development GET / with a rendering module whose dynamic
resolution fails is answered 404 with the placeholder. -/
theorem c3_witness :
    ∃ r, ServerTs.dispatch envDev wImportFail reqRoot = some r ∧ r.status = 404 ∧
      ¬(r.status = 500) ∧ r.producer = .fallback ∧
      r.body = .html (ServerTs.fallbackHtml envDev) ∧
      strContains (ServerTs.fallbackHtml envDev) "<a href=\"/health\">" = true ∧
      strContains (ServerTs.fallbackHtml envDev) "<a href=\"/api/status\">" = true :=
  c3_render_failure_fallback envDev wImportFail reqRoot (by decide) (Or.inl rfl)

/-- C4 counterexample: the error middleware computes err.status with the
JavaScript or-operator, so a present numeric status of 0 is falsy and
the response status is 500, not the present status. -/
theorem c4_counterexample :
    errStatusZero.status = some 0 ∧
    (ServerTs.dispatch envDev wErrZero reqRoot).map Response.status = some 500 := by
  decide

/-- C4 (amended): for a request whose rendering handler forwards an
uncaught error, the terminal error responder answers JSON whose error
field is the generic Internal Server Error text in production and the
error message otherwise, whose stack field can only be present outside
production and then equals the error stack, and whose status is the
error status when present and nonzero (JavaScript truthiness) and 500
otherwise. -/
theorem c4_error_responder (env : Env) (w : World) (req : Request) (e : ServerError)
    (hdel : ServerTs.delegatesToRenderer w req)
    (he : w.renderStep = .callNextErr e) :
    ∃ r b, ServerTs.dispatch env w req = some r ∧ r.producer = .errorHandler ∧
      r.body = .errorJson b ∧
      (env.nodeEnv = some "production" → b.error = "Internal Server Error" ∧ b.stack = none) ∧
      (¬(env.nodeEnv = some "production") → b.error = e.message) ∧
      (¬(b.stack = none) → ¬(env.nodeEnv = some "production") ∧ b.stack = e.stack) ∧
      (∀ n, e.status = some n → ¬(n = 0) → r.status = n) ∧
      (e.status = some 0 → r.status = 500) ∧
      (e.status = none → r.status = 500) := by
  obtain ⟨hs, hd⟩ := ServerTs.render_error env w req e hdel he
  refine ⟨_, _, hd, rfl, rfl, ?_, ?_, ?_, ?_, ?_, ?_⟩
  · intro hp
    constructor
    · simp [ServerTs.errorMiddleware, hp]
    · simp [ServerTs.errorMiddleware, hp]
  · intro hp
    simp [ServerTs.errorMiddleware, hp]
  · intro hns
    by_cases hc : ¬(env.nodeEnv = some "production") ∧ truthyStr e.stack = true
    · refine ⟨hc.1, ?_⟩
      simp only [ServerTs.errorMiddleware] at hns ⊢
      simp [hc]
    · exfalso
      apply hns
      simp only [ServerTs.errorMiddleware]
      simp [if_neg hc]
  · intro n hn hnz
    simp [ServerTs.errorMiddleware, jsOrNat, hn, hnz]
  · intro hn
    simp [ServerTs.errorMiddleware, jsOrNat, hn]
  · intro hn
    simp [ServerTs.errorMiddleware, jsOrNat, hn]

/-- C4 witness: a forwarded error with status 418 and a stack, in
development mode, yields status 418, the error message, and the stack. -/
theorem c4_witness :
    ∃ r b, ServerTs.dispatch envDev wErrTeapot reqRoot = some r ∧
      r.producer = .errorHandler ∧ r.body = .errorJson b ∧
      (envDev.nodeEnv = some "production" → b.error = "Internal Server Error" ∧ b.stack = none) ∧
      (¬(envDev.nodeEnv = some "production") → b.error = errTeapot.message) ∧
      (¬(b.stack = none) → ¬(envDev.nodeEnv = some "production") ∧ b.stack = errTeapot.stack) ∧
      (∀ n, errTeapot.status = some n → ¬(n = 0) → r.status = n) ∧
      (errTeapot.status = some 0 → r.status = 500) ∧
      (errTeapot.status = none → r.status = 500) :=
  c4_error_responder envDev wErrTeapot reqRoot errTeapot (by decide) rfl

/-- C5: every GET /health request is answered 200 with the
HealthResponse JSON of src/server.ts (status, timestamp, uptime,
environment, port, memory), whose uptime equals the nonnegative process
uptime and whose memory record carries the resident set size field. -/
theorem c5_health_endpoint (env : Env) (w : World) (req : Request)
    (hm : req.method = "GET") (hp : req.path = "/health") (hup : 0 ≤ env.uptime) :
    ∃ r b, ServerTs.dispatch env w req = some r ∧ r.status = 200 ∧
      r.body = .healthJson b ∧
      b = { status := "OK", timestamp := env.now, uptime := env.uptime,
            environment := jsOrStr env.nodeEnv "development",
            port := jsOrNat env.portVar 3000, memory := env.memory } ∧
      0 ≤ b.uptime ∧ b.memory.rss = env.memory.rss := by
  obtain ⟨m, p, u, ho, x⟩ := req
  simp only at hm hp
  subst hm; subst hp
  exact ⟨_, _, rfl, rfl, rfl, rfl, hup, rfl⟩

/-- C5 witness: concrete GET /health in the development environment. -/
theorem c5_witness :
    ∃ r b, ServerTs.dispatch envDev wImportFail reqHealth = some r ∧ r.status = 200 ∧
      r.body = .healthJson b ∧
      b = { status := "OK", timestamp := envDev.now, uptime := envDev.uptime,
            environment := jsOrStr envDev.nodeEnv "development",
            port := jsOrNat envDev.portVar 3000, memory := envDev.memory } ∧
      0 ≤ b.uptime ∧ b.memory.rss = envDev.memory.rss :=
  c5_health_endpoint envDev wImportFail reqHealth rfl rfl (by decide)

/-- C6: two GET /api/status requests at different timestamps but the
same remaining state are both answered 200 with identical message and
version fields (Server is running, 1.0.0); only the timestamp field
follows the clock. -/
theorem c6_api_status_idempotent (env : Env) (t1 t2 : String) (w1 w2 : World) (req : Request)
    (hm : req.method = "GET") (hp : req.path = "/api/status") :
    ∃ r1 r2 b1 b2,
      ServerTs.dispatch { env with now := t1 } w1 req = some r1 ∧
      ServerTs.dispatch { env with now := t2 } w2 req = some r2 ∧
      r1.status = 200 ∧ r2.status = 200 ∧
      r1.body = .apiJson b1 ∧ r2.body = .apiJson b2 ∧
      b1.message = b2.message ∧ b1.version = b2.version ∧
      b1.message = "Server is running" ∧ b1.version = "1.0.0" ∧
      b1.timestamp = t1 ∧ b2.timestamp = t2 := by
  obtain ⟨m, p, u, ho, x⟩ := req
  simp only at hm hp
  subst hm; subst hp
  exact ⟨_, _, _, _, rfl, rfl, rfl, rfl, rfl, rfl, rfl, rfl, rfl, rfl, rfl, rfl⟩

/-- C6 witness: two concrete /api/status requests at distinct times. -/
theorem c6_witness :
    ∃ r1 r2 b1 b2,
      ServerTs.dispatch { envDev with now := "2026-01-01T00:00:00.000Z" } wImportFail
        reqApiStatus = some r1 ∧
      ServerTs.dispatch { envDev with now := "2026-01-01T00:00:05.000Z" } wImportFail
        reqApiStatus = some r2 ∧
      r1.status = 200 ∧ r2.status = 200 ∧
      r1.body = .apiJson b1 ∧ r2.body = .apiJson b2 ∧
      b1.message = b2.message ∧ b1.version = b2.version ∧
      b1.message = "Server is running" ∧ b1.version = "1.0.0" ∧
      b1.timestamp = "2026-01-01T00:00:00.000Z" ∧ b2.timestamp = "2026-01-01T00:00:05.000Z" :=
  c6_api_status_idempotent envDev "2026-01-01T00:00:00.000Z" "2026-01-01T00:00:05.000Z"
    wImportFail wImportFail reqApiStatus rfl rfl

/-- C7: a static asset served under /build carries the Cache-Control
header derived from options that depend only on the mode: in production
all three variants pass immutable with maxAge one year (Cache-Control
public, max-age=31536000, immutable); in development src/server.ts
passes no caching options (maxAge 0), while the part_001 and part_004
variants pass maxAge one hour, none immutable. -/
theorem c7_static_caching_by_mode (env : Env) (w : World) (req : Request)
    (hb : underBuild req.path = true) (hg : getLike req.method)
    (hf : w.staticFileExists = true) :
    (∃ r, ServerTs.dispatch env w req = some r ∧ r.producer = .staticFiles ∧
       ("Cache-Control", renderCacheControl (ServerTs.staticOptions env)) ∈ r.headers) ∧
    (env.nodeEnv = some "production" →
       ServerTs.staticOptions env = { immutable := true, maxAgeMs := oneYearMs } ∧
       Variant001.staticOptions env = { immutable := true, maxAgeMs := oneYearMs } ∧
       Variant004.staticOptions env = { immutable := true, maxAgeMs := oneYearMs } ∧
       renderCacheControl (ServerTs.staticOptions env) = "public, max-age=31536000, immutable") ∧
    (¬(env.nodeEnv = some "production") →
       ServerTs.staticOptions env = { immutable := false, maxAgeMs := 0 } ∧
       Variant001.staticOptions env = { immutable := false, maxAgeMs := oneHourMs } ∧
       Variant004.staticOptions env = { immutable := false, maxAgeMs := oneHourMs } ∧
       renderCacheControl (ServerTs.staticOptions env) = "public, max-age=0") := by
  refine ⟨?_, ?_, ?_⟩
  · obtain ⟨hs, hd⟩ := ServerTs.static_serves env w req hb hg hf
    exact ⟨_, hd, rfl, mem_setHeader_self _ _ _⟩
  · intro hprod
    refine ⟨?_, ?_, ?_, ?_⟩ <;>
      simp only [ServerTs.staticOptions, Variant001.staticOptions, Variant004.staticOptions,
        hprod, if_pos, ite_true] <;> decide
  · intro hdev
    refine ⟨?_, ?_, ?_, ?_⟩ <;>
      simp only [ServerTs.staticOptions, Variant001.staticOptions, Variant004.staticOptions,
        hdev, if_neg, not_false_eq_true, ite_false] <;> decide

/-- C7 witness: production GET /build/app.js with the file present. -/
theorem c7_witness :
    (∃ r, ServerTs.dispatch envProd wFileOk reqBuildAsset = some r ∧
       r.producer = .staticFiles ∧
       ("Cache-Control", renderCacheControl (ServerTs.staticOptions envProd)) ∈ r.headers) ∧
    (envProd.nodeEnv = some "production" →
       ServerTs.staticOptions envProd = { immutable := true, maxAgeMs := oneYearMs } ∧
       Variant001.staticOptions envProd = { immutable := true, maxAgeMs := oneYearMs } ∧
       Variant004.staticOptions envProd = { immutable := true, maxAgeMs := oneYearMs } ∧
       renderCacheControl (ServerTs.staticOptions envProd) = "public, max-age=31536000, immutable") ∧
    (¬(envProd.nodeEnv = some "production") →
       ServerTs.staticOptions envProd = { immutable := false, maxAgeMs := 0 } ∧
       Variant001.staticOptions envProd = { immutable := false, maxAgeMs := oneHourMs } ∧
       Variant004.staticOptions envProd = { immutable := false, maxAgeMs := oneHourMs } ∧
       renderCacheControl (ServerTs.staticOptions envProd) = "public, max-age=0") :=
  c7_static_caching_by_mode envProd wFileOk reqBuildAsset (by decide) (Or.inl rfl) rfl

/-- C8 counterexample: the handleRequest of src/app/entry.server.tsx
schedules no abort, so a render that never produces a shell never
settles; no bounded timeout applies to that rendering/streaming step. -/
theorem c8_counterexample :
    EntryServer.abortDelay = none ∧
    settleTime EntryServer.abortDelay RenderEvent.never = none := by
  exact ⟨rfl, rfl⟩

/-- C8 (amended): in the entry server that schedules the abort
(src/unnamed/part_005), every render settles within streamTimeout plus
1000 milliseconds, whatever the shell does: a late or absent shell is
cut short by the scheduled abort instead of hanging. -/
theorem c8_bounded_stream_abort (ev : RenderEvent) :
    ∃ t, t ≤ EntryServerTimeout.streamTimeout + 1000 ∧
      settleTime EntryServerTimeout.abortDelay ev = some t := by
  cases ev with
  | shellReady t =>
    exact ⟨min t (EntryServerTimeout.streamTimeout + 1000), Nat.min_le_right _ _, rfl⟩
  | shellError t =>
    exact ⟨min t (EntryServerTimeout.streamTimeout + 1000), Nat.min_le_right _ _, rfl⟩
  | never =>
    exact ⟨EntryServerTimeout.streamTimeout + 1000, Nat.le_refl _, rfl⟩

/-- C9: for every request the src/server.ts dispatcher and the
src/unnamed/part_004 dispatcher each emit exactly one response: the
chain never falls off the end (the catch-all always answers or raises,
and a raise is answered by the terminal error responder), and the runner
stops at the first responder, so no second response follows. -/
theorem c9_exactly_one_response (env : Env) (w : World) (req : Request) :
    (∃ r, ServerTs.dispatch env w req = some r) ∧
    (∃ r, Variant004.dispatch env w req = some r) := by
  obtain ⟨sfe, rstep⟩ := w
  constructor
  · cases rstep <;>
    · simp only [ServerTs.dispatch, ServerTs.chain, runChain, ServerTs.securityMiddleware,
        ServerTs.compressionMiddleware, ServerTs.corsMiddleware, ServerTs.morganMiddleware,
        ServerTs.healthRoute, ServerTs.apiStatusRoute, ServerTs.staticMiddleware,
        ServerTs.timingMiddleware, ServerTs.middlewareDemoRoute, ServerTs.renderCatchAll]
      repeat' split
      all_goals exact ⟨_, rfl⟩
  · cases rstep <;>
    · simp only [Variant004.dispatch, Variant004.chain, runChain,
        ServerTs.compressionMiddleware, Variant004.httpsRedirectMiddleware,
        ServerTs.staticMiddleware, Variant004.routerAll]
      repeat' split
      all_goals exact ⟨_, rfl⟩

/-- C10: every OPTIONS request is answered directly by the CORS
middleware of src/server.ts with status 200 and an empty body after the
three Access-Control-Allow headers are set; no later middleware or route
runs for it. -/
theorem c10_options_preflight (env : Env) (w : World) (req : Request)
    (h : req.method = "OPTIONS") :
    ∃ r, ServerTs.dispatch env w req = some r ∧ r.status = 200 ∧ r.body = .empty ∧
      r.producer = .cors ∧
      ("Access-Control-Allow-Origin", "*") ∈ r.headers ∧
      ("Access-Control-Allow-Methods", "GET, POST, PUT, DELETE, OPTIONS") ∈ r.headers ∧
      ("Access-Control-Allow-Headers", "Content-Type, Authorization") ∈ r.headers := by
  obtain ⟨m, p, u, ho, x⟩ := req
  simp only at h
  subst h
  refine ⟨_, rfl, rfl, rfl, rfl, ?_, ?_, ?_⟩ <;> decide

/-- C10 witness: a concrete OPTIONS preflight. -/
theorem c10_witness :
    ∃ r, ServerTs.dispatch envDev wImportFail reqOptions = some r ∧ r.status = 200 ∧
      r.body = .empty ∧ r.producer = .cors ∧
      ("Access-Control-Allow-Origin", "*") ∈ r.headers ∧
      ("Access-Control-Allow-Methods", "GET, POST, PUT, DELETE, OPTIONS") ∈ r.headers ∧
      ("Access-Control-Allow-Headers", "Content-Type, Authorization") ∈ r.headers :=
  c10_options_preflight envDev wImportFail reqOptions rfl
